import Mathlib

/-!
Verification of the raster-plot data pipeline in `src/plotRaster2.py`.

The file embeds the body of `plotRaster` (the only function of the module)
as executable Lean definitions: the shape resolution of the raw raster
input (lines 222-236), the population defaulting (lines 238-242), the
cell-index ordering (lines 253-258), the full-body run including Python
name resolution at the `setAttributes` and `scatter` calls (lines 251 and
261), the legend-count computation (line 272) and the synchrony-line
spike-time selection (lines 264-268).  Spike times are modelled as
rationals (the code only carries and compares them), spike indices as
integers, population sizes as naturals.
-/

namespace PlotRaster

/-- Python exceptions that the embedded code paths can raise. -/
inductive PyErr
  | keyError (k : String)
  | nameError (n : String)
  | unresolvableOrderingKey
  deriving Repr, DecidableEq

/-- Raw raster input after any file loading (lines 222-236 of
`src/plotRaster2.py`): either a dict with (possibly missing) keys
`spkTimes`, `spkInds`, `popNumCells`, `popLabels`, or a list/tuple whose
first two items are the times and indices with optional third and fourth
items.  A `str` path input is resolved by the external loader into one of
these shapes, so the union covers every post-load input. -/
inductive RawRasterInput
  | dict (spkTimes : Option (List ℚ)) (spkInds : Option (List ℤ))
      (popNumCells : Option (List ℕ)) (popLabels : Option (List String))
  | seq (spkTimes : List ℚ) (spkInds : List ℤ)
      (popNumCells : Option (List ℕ)) (popLabels : Option (List String))
  deriving Repr, DecidableEq

/-- Python dict subscription `d[k]`: raises `KeyError` when the key is
absent. -/
def getKey {α : Type} (v : Option α) (k : String) : Except PyErr α :=
  match v with
  | some x => Except.ok x
  | none => Except.error (PyErr.keyError k)

/-- Shape resolution, lines 222-236: extract `spkTimes` and `spkInds`;
a `popNumCells`/`popLabels` entry present in the data overrides the
caller-supplied parameter, otherwise the parameter is kept.  No length
check of any kind is performed by these lines. -/
def resolveShape (rasterData : RawRasterInput) (popNumCells : Option (List ℕ))
    (popLabels : Option (List String)) :
    Except PyErr (List ℚ × List ℤ × Option (List ℕ) × Option (List String)) :=
  match rasterData with
  | RawRasterInput.dict t i pn pl =>
    match getKey t "spkTimes" with
    | Except.error e => Except.error e
    | Except.ok spkTimes =>
      match getKey i "spkInds" with
      | Except.error e => Except.error e
      | Except.ok spkInds =>
        Except.ok (spkTimes, spkInds, pn.orElse (fun _ => popNumCells),
          pl.orElse (fun _ => popLabels))
  | RawRasterInput.seq t i pn pl =>
    Except.ok (t, i, pn.orElse (fun _ => popNumCells), pl.orElse (fun _ => popLabels))

/-- Python `list(set(l))` (lines 240 and 245): one representative per
distinct value.  CPython's iteration order over an int set is
unspecified; only the length and membership of this list are consumed by
the code, so the model keeps the first occurrence of each value. -/
def pySet (l : List ℤ) : List ℤ := l.dedup

/-- Python `sorted(l)` (line 255): stable ascending sort. -/
def pySorted (l : List ℤ) : List ℤ := List.insertionSort (· ≤ ·) l

/-- Ordering step, lines 253-258.  `orderBy == 'gid'` sorts the indices
(alone) ascending; any other `orderBy` sorts them by the injected tag
lookup `sim.net.cells[x].tags[orderBy]` (stable, decorate-sort-undecorate),
raising when the lookup fails for some index.  The spec names the `'gid'`
ordering key `"index"`. -/
def orderInds (orderBy : String) (lookup : ℤ → Option ℤ) (spkInds : List ℤ) :
    Except PyErr (List ℤ) :=
  if orderBy == "gid" then Except.ok (pySorted spkInds)
  else
    match spkInds.mapM (fun x => (lookup x).map (fun k => (x, k))) with
    | none => Except.error PyErr.unresolvableOrderingKey
    | some pairs =>
      Except.ok ((List.insertionSort (fun p q : ℤ × ℤ => p.2 ≤ q.2) pairs).map Prod.fst)

/-- The canonical record produced by the normalization pipeline
(`NormalizedRaster` of the spec): times, indices, population sizes,
population labels. -/
structure NormalizedRaster where
  spkTimes : List ℚ
  spkInds : List ℤ
  popNumCells : List ℕ
  popLabels : List String
  deriving Repr, DecidableEq

/-- The normalization pipeline of `plotRaster` (lines 222-258, the
`RasterDataNormalizer` of the spec): shape resolution, population
defaulting (`[len(set(spkInds))]` and `['Population']`), ordering.
Line 255 reassigns `spkInds = sorted(spkInds)` and never touches
`spkTimes`, which the embedding reproduces. -/
def normalize (rasterData : RawRasterInput) (popNumCells : Option (List ℕ))
    (popLabels : Option (List String)) (orderBy : String) (lookup : ℤ → Option ℤ) :
    Except PyErr NormalizedRaster :=
  match resolveShape rasterData popNumCells popLabels with
  | Except.error e => Except.error e
  | Except.ok (spkTimes, spkInds, pn, pl) =>
    match orderInds orderBy lookup spkInds with
    | Except.error e => Except.error e
    | Except.ok sortedInds =>
      Except.ok ⟨spkTimes, sortedInds, pn.getD [(pySet spkInds).length],
        pl.getD ["Population"]⟩

/-- The trivial lookup collaborator, used to instantiate `'gid'`-ordered
runs (the `'gid'` branch never consults it). -/
def noLookup : ℤ → Option ℤ := fun _ => none

/-- `countOfDistinct` as the spec words it: the number of distinct
indices. -/
def countOfDistinct (l : List ℤ) : ℕ := l.toFinset.card

-- Sanity: the code's `len(set(l))` agrees with the spec's `countOfDistinct`.
theorem pySet_length_eq_countOfDistinct (l : List ℤ) :
    (pySet l).length = countOfDistinct l := by
  simp [pySet, countOfDistinct, List.card_toFinset]

/-- Helper: a `'gid'`-ordered normalization that returns at all returns
sorted indices. -/
theorem normalize_gid_sorted (d : RawRasterInput) (pn : Option (List ℕ))
    (pl : Option (List String)) (lk : ℤ → Option ℤ) (nr : NormalizedRaster)
    (h : normalize d pn pl "gid" lk = Except.ok nr) :
    nr.spkInds.Sorted (· ≤ ·) := by
  unfold normalize at h
  cases hres : resolveShape d pn pl with
  | error e => rw [hres] at h; cases h
  | ok r =>
    obtain ⟨t, i, pn', pl'⟩ := r
    rw [hres] at h
    simp only [orderInds, beq_self_eq_true, if_pos] at h
    cases h
    exact List.sorted_insertionSort (· ≤ ·) i

/-- C1: the claim's example input, `times=[0.1,0.3,0.2]`, `indices=[2,0,1]`.
Line 255 sorts `spkInds` alone and never permutes `spkTimes`, so the
output times stay `[0.1,0.3,0.2]` (not the claimed `[0.3,0.2,0.1]`) and
the multiset of (time, index) pairs is not preserved. -/
theorem C1_sort_drops_pairing :
    normalize (RawRasterInput.seq [0.1, 0.3, 0.2] [2, 0, 1] none none)
        none none "gid" noLookup
      = Except.ok ⟨[0.1, 0.3, 0.2], [0, 1, 2], [3], ["Population"]⟩
    ∧ ¬ ((([0.1, 0.3, 0.2] : List ℚ).zip ([0, 1, 2] : List ℤ)).Perm
        (([0.1, 0.3, 0.2] : List ℚ).zip ([2, 0, 1] : List ℤ)))
    ∧ ([0.1, 0.3, 0.2] : List ℚ) ≠ [0.3, 0.2, 0.1] := by
  refine ⟨rfl, ?_, ?_⟩
  · intro hp
    have hm : ((0.1 : ℚ), (0 : ℤ))
        ∈ (([0.1, 0.3, 0.2] : List ℚ).zip ([2, 0, 1] : List ℤ)) :=
      hp.mem_iff.mp (by simp)
    norm_num at hm
  · intro h
    have h01 : (0.1 : ℚ) = 0.3 := by
      have := congrArg (fun l => l.headI) h
      simpa using this
    norm_num at h01

/-- C3, counterexample: a length-mismatched list-shaped input
(`times` of length 3, `indices` of length 2) is accepted and normalized
without any error — no `MalformedInputError` exists in the code. -/
theorem C3_mismatch_accepted :
    normalize (RawRasterInput.seq [0.1, 0.2, 0.3] [0, 1] none none)
        none none "gid" noLookup
      = Except.ok ⟨[0.1, 0.2, 0.3], [0, 1], [2], ["Population"]⟩ := rfl

/-- C3, amended: shape resolution (lines 222-236) performs no length
validation, so every length-mismatched list-shaped input normalizes
successfully and the mismatch survives into the result. -/
theorem C3_no_length_check (t : List ℚ) (i : List ℤ) (pn : Option (List ℕ))
    (pl : Option (List String)) (lk : ℤ → Option ℤ)
    (h : t.length ≠ i.length) :
    ∃ nr, normalize (RawRasterInput.seq t i pn pl) none none "gid" lk
        = Except.ok nr
      ∧ nr.spkTimes.length ≠ nr.spkInds.length := by
  refine ⟨⟨t, pySorted i, (pn.orElse fun _ => none).getD [(pySet i).length],
    (pl.orElse fun _ => none).getD ["Population"]⟩, rfl, ?_⟩
  have hlen : (pySorted i).length = i.length :=
    (List.perm_insertionSort (· ≤ ·) i).length_eq
  simpa [hlen] using h

/-- C3, witness for the amended theorem at the claim's own sizes. -/
theorem C3_no_length_check_witness :
    ([0.1, 0.2, 0.3] : List ℚ).length ≠ ([0, 1] : List ℤ).length
    ∧ ∃ nr, normalize (RawRasterInput.seq [0.1, 0.2, 0.3] [0, 1] none none)
          none none "gid" noLookup
        = Except.ok nr
      ∧ nr.spkTimes.length ≠ nr.spkInds.length :=
  ⟨by decide, C3_no_length_check [0.1, 0.2, 0.3] [0, 1] none none noLookup (by decide)⟩

/-- C6: whenever the resolved input carries no population metadata, the
output population sizes default to `[countOfDistinct indices]` and the
labels to `["Population"]` (lines 238-242). -/
theorem C6_population_default (d : RawRasterInput) (lk : ℤ → Option ℤ)
    (t : List ℚ) (i : List ℤ)
    (hres : resolveShape d none none = Except.ok (t, i, none, none))
    (nr : NormalizedRaster)
    (h : normalize d none none "gid" lk = Except.ok nr) :
    nr.popNumCells = [countOfDistinct i] ∧ nr.popLabels = ["Population"] := by
  unfold normalize at h
  rw [hres] at h
  dsimp only at h
  rw [show orderInds "gid" lk i = Except.ok (pySorted i) from rfl] at h
  dsimp only at h
  cases h
  exact ⟨by simp [pySet_length_eq_countOfDistinct], rfl⟩

/-- C6, witness: `indices = [0,1,2,2,1]` with no population metadata gives
`popNumCells = [3]` and `popLabels = ["Population"]`. -/
theorem C6_population_default_witness :
    resolveShape (RawRasterInput.seq [0.1, 0.2, 0.3, 0.4, 0.5] [0, 1, 2, 2, 1] none none)
        none none
      = Except.ok ([0.1, 0.2, 0.3, 0.4, 0.5], [0, 1, 2, 2, 1], none, none)
    ∧ normalize (RawRasterInput.seq [0.1, 0.2, 0.3, 0.4, 0.5] [0, 1, 2, 2, 1] none none)
        none none "gid" noLookup
      = Except.ok ⟨[0.1, 0.2, 0.3, 0.4, 0.5], [0, 1, 1, 2, 2], [3], ["Population"]⟩
    ∧ (⟨[0.1, 0.2, 0.3, 0.4, 0.5], [0, 1, 1, 2, 2], [3], ["Population"]⟩
        : NormalizedRaster).popNumCells = [countOfDistinct [0, 1, 2, 2, 1]]
    ∧ countOfDistinct [0, 1, 2, 2, 1] = 3 :=
  ⟨rfl, rfl,
    (C6_population_default
      (RawRasterInput.seq [0.1, 0.2, 0.3, 0.4, 0.5] [0, 1, 2, 2, 1] none none)
      noLookup [0.1, 0.2, 0.3, 0.4, 0.5] [0, 1, 2, 2, 1] rfl
      ⟨[0.1, 0.2, 0.3, 0.4, 0.5], [0, 1, 1, 2, 2], [3], ["Population"]⟩ rfl).1,
    by decide⟩

/-- C7: for every input normalized with the `'gid'` ordering key (the
spec's `"index"`), the output index sequence is non-decreasing. -/
theorem C7_gid_sorted (d : RawRasterInput) (pn : Option (List ℕ))
    (pl : Option (List String)) (lk : ℤ → Option ℤ) (nr : NormalizedRaster)
    (h : normalize d pn pl "gid" lk = Except.ok nr) :
    nr.spkInds.Sorted (· ≤ ·) :=
  normalize_gid_sorted d pn pl lk nr h

/-- C7, witness at the running example. -/
theorem C7_gid_sorted_witness :
    normalize (RawRasterInput.seq [0.1, 0.3, 0.2] [2, 0, 1] none none)
        none none "gid" noLookup
      = Except.ok ⟨[0.1, 0.3, 0.2], [0, 1, 2], [3], ["Population"]⟩
    ∧ (⟨[0.1, 0.3, 0.2], [0, 1, 2], [3], ["Population"]⟩
        : NormalizedRaster).spkInds.Sorted (· ≤ ·) :=
  ⟨rfl, C7_gid_sorted (RawRasterInput.seq [0.1, 0.3, 0.2] [2, 0, 1] none none)
    none none noLookup ⟨[0.1, 0.3, 0.2], [0, 1, 2], [3], ["Population"]⟩ rfl⟩

/-- C8: normalizing with the `'gid'` ordering key is idempotent — feeding
a normalized raster back in as a list-shaped input (times, indices,
sizes, labels) reproduces it exactly. -/
theorem C8_idempotent (d : RawRasterInput) (pn : Option (List ℕ))
    (pl : Option (List String)) (lk : ℤ → Option ℤ) (nr : NormalizedRaster)
    (h : normalize d pn pl "gid" lk = Except.ok nr) :
    normalize (RawRasterInput.seq nr.spkTimes nr.spkInds
        (some nr.popNumCells) (some nr.popLabels)) none none "gid" lk
      = Except.ok nr := by
  have hs : nr.spkInds.Sorted (· ≤ ·) := normalize_gid_sorted d pn pl lk nr h
  have hsort : orderInds "gid" lk nr.spkInds = Except.ok nr.spkInds := by
    rw [show orderInds "gid" lk nr.spkInds = Except.ok (pySorted nr.spkInds) from rfl]
    rw [show pySorted nr.spkInds = nr.spkInds from hs.insertionSort_eq]
  unfold normalize
  dsimp only [resolveShape]
  rw [hsort]
  rfl

/-- C8, witness: normalizing the already-normalized running example
reproduces it verbatim. -/
theorem C8_idempotent_witness :
    normalize (RawRasterInput.seq [0.1, 0.3, 0.2] [2, 0, 1] none none)
        none none "gid" noLookup
      = Except.ok ⟨[0.1, 0.3, 0.2], [0, 1, 2], [3], ["Population"]⟩
    ∧ normalize (RawRasterInput.seq [0.1, 0.3, 0.2] [0, 1, 2]
        (some [3]) (some ["Population"])) none none "gid" noLookup
      = Except.ok ⟨[0.1, 0.3, 0.2], [0, 1, 2], [3], ["Population"]⟩ :=
  ⟨rfl, C8_idempotent (RawRasterInput.seq [0.1, 0.3, 0.2] [2, 0, 1] none none)
    none none noLookup ⟨[0.1, 0.3, 0.2], [0, 1, 2], [3], ["Population"]⟩ rfl⟩

/-- The ambient interpreter state the function could reach for: the
matplotlib process-global `plt.rcParams` (the only global the body of
`plotRaster` ever assigns, at lines 277-279 — outside the normalization
pipeline). -/
structure PyGlobals where
  rcParams : List (String × String)
  deriving Repr, DecidableEq

/-- The normalization pipeline with the ambient state threaded through
explicitly.  Lines 222-258 assign only local names, so no step writes
the state. -/
def normalizeWithState (d : RawRasterInput) (pn : Option (List ℕ))
    (pl : Option (List String)) (orderBy : String) (lk : ℤ → Option ℤ)
    (σ : PyGlobals) : Except PyErr NormalizedRaster × PyGlobals :=
  match resolveShape d pn pl with
  | Except.error e => (Except.error e, σ)
  | Except.ok (t, i, pn', pl') =>
    match orderInds orderBy lk i with
    | Except.error e => (Except.error e, σ)
    | Except.ok si =>
      (Except.ok ⟨t, si, pn'.getD [(pySet i).length], pl'.getD ["Population"]⟩, σ)

/-- C5: normalization is pure — it leaves the ambient state untouched,
its value is a function of the arguments (plus the injected lookup
collaborator) alone, and a second invocation in the state left by the
first returns the identical result. -/
theorem C5_normalization_pure (d : RawRasterInput) (pn : Option (List ℕ))
    (pl : Option (List String)) (ob : String) (lk : ℤ → Option ℤ)
    (σ : PyGlobals) :
    (normalizeWithState d pn pl ob lk σ).2 = σ
    ∧ (normalizeWithState d pn pl ob lk σ).1 = normalize d pn pl ob lk
    ∧ normalizeWithState d pn pl ob lk ((normalizeWithState d pn pl ob lk σ).2)
      = normalizeWithState d pn pl ob lk σ := by
  have h1 : (normalizeWithState d pn pl ob lk σ).2 = σ := by
    unfold normalizeWithState
    cases hres : resolveShape d pn pl with
    | error e => rfl
    | ok r =>
      obtain ⟨t, i, pn', pl'⟩ := r
      dsimp only
      cases ho : orderInds ob lk i <;> simp [ho]
  have h2 : (normalizeWithState d pn pl ob lk σ).1 = normalize d pn pl ob lk := by
    unfold normalizeWithState normalize
    cases hres : resolveShape d pn pl with
    | error e => rfl
    | ok r =>
      obtain ⟨t, i, pn', pl'⟩ := r
      dsimp only
      cases ho : orderInds ob lk i <;> simp [ho]
  exact ⟨h1, h2, by rw [h1]⟩

/-- Global names of the module `src/plotRaster2.py` (imports and the
function itself), visible from inside the function body. -/
def moduleGlobals : List String :=
  ["__gui__", "mpatches", "exception", "loadData", "ScatterPlotter", "plotRaster"]

/-- Names bound inside `plotRaster` by the time line 251 executes: the
sixteen parameters (lines 14-29) and the locals assigned by lines
214-250.  Later lines bind nothing further before the `scatter` call at
line 261.  No Python builtin is named `title`, `xlabel`, `ylabel`, `s`,
`marker` or `linewidth`, so resolution against this list plus
`moduleGlobals` decides those references. -/
def boundLocalNames : List String :=
  ["rasterData", "axis", "timeRange", "maxSpikes", "orderBy", "popRates",
   "popNumCells", "popLabels", "popColors", "syncLines", "colorbyPhase",
   "legend", "colorList", "orderInverse", "returnPlotter", "kwargs",
   "sim", "spkTimes", "spkInds", "cellInds", "plotter", "fig"]

/-- Python bare-name resolution in the body: locals, then module
globals, then builtins (none of which is relevant here). -/
def evalName (n : String) : Except PyErr Unit :=
  if boundLocalNames.contains n || moduleGlobals.contains n then Except.ok ()
  else Except.error (PyErr.nameError n)

/-- Token for the figure object a successful run would return. -/
inductive Figure
  | mk
  deriving Repr, DecidableEq

/-- The full body of `plotRaster` after data acquisition, in source
order: shape resolution (lines 222-236), population defaulting (238-242),
`cellInds` (245), figure and axis creation (248-250), the
`setAttributes(title=title, xlabel=xlabel, ylabel=ylabel)` call whose
keyword arguments are bare names resolved at line 251, ordering
(253-258), and the `scatter(..., s=s, marker=marker, linewidth=linewidth)`
call at line 261.  The presentation code after line 261 (synchrony
lines, legend, rcParams, save/show) is modelled as returning the figure;
it is unreachable, since no run gets past line 251. -/
def plotRasterRun (rasterData : RawRasterInput) (pn : Option (List ℕ))
    (pl : Option (List String)) (orderBy : String) (lk : ℤ → Option ℤ) :
    Except PyErr Figure :=
  match resolveShape rasterData pn pl with
  | Except.error e => Except.error e
  | Except.ok (_spkTimes, spkInds, pn', pl') =>
    let _popNumCells := pn'.getD [(pySet spkInds).length]
    let _popLabels := pl'.getD ["Population"]
    let _cellInds := pySet spkInds
    match evalName "title" with
    | Except.error e => Except.error e
    | Except.ok _ =>
      match evalName "xlabel" with
      | Except.error e => Except.error e
      | Except.ok _ =>
        match evalName "ylabel" with
        | Except.error e => Except.error e
        | Except.ok _ =>
          match orderInds orderBy lk spkInds with
          | Except.error e => Except.error e
          | Except.ok _sortedInds =>
            match evalName "s" with
            | Except.error e => Except.error e
            | Except.ok _ =>
              match evalName "marker" with
              | Except.error e => Except.error e
              | Except.ok _ =>
                match evalName "linewidth" with
                | Except.error e => Except.error e
                | Except.ok _ => Except.ok Figure.mk

/-- C2: no input makes `plotRaster` succeed — every run either fails in
shape resolution or, for every input whose shape resolves, stops at line
251 with a `NameError` on `title`; and none of the six names consumed at
lines 251 and 261 is bound anywhere in scope. -/
theorem C2_run_never_succeeds :
    (∀ (d : RawRasterInput) (pn : Option (List ℕ)) (pl : Option (List String))
      (ob : String) (lk : ℤ → Option ℤ), (plotRasterRun d pn pl ob lk).isOk = false)
    ∧ (∀ (d : RawRasterInput) (pn : Option (List ℕ)) (pl : Option (List String))
        (ob : String) (lk : ℤ → Option ℤ)
        (r : List ℚ × List ℤ × Option (List ℕ) × Option (List String)),
        resolveShape d pn pl = Except.ok r →
        plotRasterRun d pn pl ob lk = Except.error (PyErr.nameError "title"))
    ∧ (["title", "xlabel", "ylabel", "s", "marker", "linewidth"].all
        (fun n => !(boundLocalNames.contains n || moduleGlobals.contains n))) = true := by
  have hname : ∀ (d : RawRasterInput) (pn : Option (List ℕ)) (pl : Option (List String))
      (ob : String) (lk : ℤ → Option ℤ)
      (r : List ℚ × List ℤ × Option (List ℕ) × Option (List String)),
      resolveShape d pn pl = Except.ok r →
      plotRasterRun d pn pl ob lk = Except.error (PyErr.nameError "title") := by
    intro d pn pl ob lk r h
    obtain ⟨t, i, pn', pl'⟩ := r
    unfold plotRasterRun
    rw [h]
    rfl
  refine ⟨?_, hname, by decide⟩
  intro d pn pl ob lk
  cases hres : resolveShape d pn pl with
  | error e =>
    unfold plotRasterRun
    rw [hres]
    rfl
  | ok r =>
    rw [hname d pn pl ob lk r hres]
    rfl

/-- C2, witness: at the running example the run fails, with precisely the
`NameError` on `title`. -/
theorem C2_run_never_succeeds_witness :
    (plotRasterRun (RawRasterInput.seq [0.1, 0.3, 0.2] [2, 0, 1] none none)
      none none "gid" noLookup).isOk = false
    ∧ plotRasterRun (RawRasterInput.seq [0.1, 0.3, 0.2] [2, 0, 1] none none)
      none none "gid" noLookup = Except.error (PyErr.nameError "title") :=
  ⟨C2_run_never_succeeds.1 (RawRasterInput.seq [0.1, 0.3, 0.2] [2, 0, 1] none none)
      none none "gid" noLookup,
    C2_run_never_succeeds.2.1 (RawRasterInput.seq [0.1, 0.3, 0.2] [2, 0, 1] none none)
      none none "gid" noLookup ([0.1, 0.3, 0.2], [2, 0, 1], none, none) rfl⟩

/-- Python `range(a, b)` as the list `[a, a+1, ..., b-1]` (empty when
`b ≤ a`); line 272 tests spike indices with `x in range(...)`. -/
def pyRange (a b : ℕ) : List ℤ := (List.range' a (b - a)).map fun n : ℕ => (n : ℤ)

/-- Membership in `range(a, b)` is exactly the half-open interval
`a ≤ x < b`. -/
theorem mem_pyRange (a b : ℕ) (x : ℤ) :
    x ∈ pyRange a b ↔ (a : ℤ) ≤ x ∧ x < (b : ℤ) := by
  unfold pyRange
  simp only [List.mem_map, List.mem_range'_1]
  constructor
  · rintro ⟨m, ⟨h1, h2⟩, rfl⟩
    refine ⟨by exact_mod_cast h1, ?_⟩
    have hmb : m < b := by omega
    exact_mod_cast hmb
  · rintro ⟨h1, h2⟩
    refine ⟨x.toNat, ⟨?_, ?_⟩, ?_⟩ <;> omega

/-- Line 272: the legend handle for each population label carries the
event count `len([x for x in spkInds if x in range(sum(popNumCells[:i]),
sum(popNumCells[:i + 1]))])`, one entry per label via
`enumerate(popLabels)`. -/
def legendEntries (spkInds : List ℤ) (popNumCells : List ℕ)
    (popLabels : List String) : List (String × ℕ) :=
  popLabels.enum.map fun ip =>
    (ip.2, (spkInds.filter fun x =>
      decide (x ∈ pyRange ((popNumCells.take ip.1).sum)
        ((popNumCells.take (ip.1 + 1)).sum))).length)

/-- C9: there is one legend entry per population label, and entry `k`
shows exactly the number of spike indices lying in population `k`'s
boundary range `[sum(sizes[:k]), sum(sizes[:k+1]))`. -/
theorem C9_legend_counts (inds : List ℤ) (sizes : List ℕ) (labels : List String) :
    (legendEntries inds sizes labels).length = labels.length
    ∧ ∀ k, k < labels.length →
        (legendEntries inds sizes labels).getD k ("", 0)
          = (labels.getD k "",
             inds.countP fun x =>
               decide (((sizes.take k).sum : ℤ) ≤ x ∧ x < ((sizes.take (k + 1)).sum : ℤ))) := by
  have hlen : (legendEntries inds sizes labels).length = labels.length := by
    simp [legendEntries]
  refine ⟨hlen, ?_⟩
  intro k hk
  rw [List.getD_eq_getElem _ _ (by rw [hlen]; exact hk),
    List.getD_eq_getElem _ _ hk]
  unfold legendEntries
  rw [List.getElem_map, List.getElem_enum]
  dsimp only
  have hpred : ∀ x ∈ inds,
      decide (x ∈ pyRange ((sizes.take k).sum) ((sizes.take (k + 1)).sum))
      = decide (((sizes.take k).sum : ℤ) ≤ x ∧ x < ((sizes.take (k + 1)).sum : ℤ)) :=
    fun x _ => decide_eq_decide.mpr (mem_pyRange _ _ x)
  rw [List.countP_eq_length_filter, List.filter_congr hpred]

/-- C9, witness: two populations of sizes 2 and 3; indices `[0, 1, 5, 2]`
put two events in the first population (`range(0,2)`) and one in the
second (`range(2,5)`). -/
theorem C9_legend_counts_witness :
    (legendEntries [0, 1, 5, 2] [2, 3] ["A", "B"]).length = 2
    ∧ (legendEntries [0, 1, 5, 2] [2, 3] ["A", "B"]).getD 1 ("", 0)
      = ("B", ([0, 1, 5, 2] : List ℤ).countP fun x =>
          decide ((([2].sum : ℤ) ≤ x ∧ x < (([2, 3] : List ℕ).sum : ℤ))))
    ∧ (legendEntries [0, 1, 5, 2] [2, 3] ["A", "B"]).getD 1 ("", 0) = ("B", 1) := by
  refine ⟨(C9_legend_counts [0, 1, 5, 2] [2, 3] ["A", "B"]).1, ?_, by decide⟩
  have h := (C9_legend_counts [0, 1, 5, 2] [2, 3] ["A", "B"]).2 1 (by decide)
  simpa using h

/-- Line 266: `[spkTimes[i] for i, ind in enumerate(spkInds) if ind ==
cellInd]` — the spike times at the positions where `spkInds` holds
`cellInd`.  Under the documented invariant `len(spkTimes) ==
len(spkInds)`, positional indexing coincides with zipping the two
lists. -/
def spikeTimesFor (times : List ℚ) (inds : List ℤ) (c : ℤ) : List ℚ :=
  ((times.zip inds).filter fun p => p.2 == c).map Prod.fst

/-- Lines 253-268: when the synchrony loop runs, `spkInds` has already
been reassigned to `sorted(spkInds)` (line 255) while `spkTimes` kept
its original order, so for `cellInd` the loop draws markers at the times
sitting at the positions where the sorted index list equals `cellInd`. -/
def syncMarkerTimes (times : List ℚ) (inds : List ℤ) (c : ℤ) : List ℚ :=
  spikeTimesFor times (pySorted inds) c

/-- C10: at the example `times=[0.1,0.3,0.2]`, `indices=[2,0,1]`, the
synchrony marker for index 0 is drawn at time 0.1 (the time sitting at
the position the sorted index list gives to 0), while the time
originally paired with index 0 is 0.3 — the per-spike decoration does
not use the original pairing. -/
theorem C10_sync_markers_not_paired :
    syncMarkerTimes [0.1, 0.3, 0.2] [2, 0, 1] 0 = [0.1]
    ∧ spikeTimesFor [0.1, 0.3, 0.2] [2, 0, 1] 0 = [0.3]
    ∧ ([0.1] : List ℚ) ≠ [0.3] := by
  refine ⟨rfl, rfl, ?_⟩
  intro h
  have h01 : (0.1 : ℚ) = 0.3 := by
    have := congrArg (fun l => l.headI) h
    simpa using this
  norm_num at h01

/-- Modelled from the spec: `sim.analysis.prepareRaster` (called at line
220 when `rasterData is None`) is external to src/ — only its call site
is in the repository.  Per the spec, when the raw event count exceeds
`maxEvents` the *time range* is narrowed — any deterministic, monotonic
windowing — until the retained count is at most `maxEvents`.  Model:
retain exactly the events whose time lies strictly below the
`(maxEvents+1)`-th smallest time; otherwise return the events
unchanged. -/
def boundEvents (maxEvents : ℕ) (times : List ℚ) (inds : List ℤ) :
    List ℚ × List ℤ :=
  if times.length ≤ maxEvents then (times, inds)
  else
    ((times.zip inds).filter fun p =>
      decide (p.1 < (List.insertionSort (· ≤ ·) times).getD maxEvents 0)).unzip

/-- Lines 213-220 composed with the pipeline: with no explicit
`rasterData` the data comes from `prepareRaster` (modelled by
`boundEvents` acting on the simulation's events), otherwise the given
data is used directly — lines 222-258 never reference `maxSpikes`. -/
def normalizeFull (rasterData : Option RawRasterInput) (simTimes : List ℚ)
    (simInds : List ℤ) (maxSpikes : ℕ) (pn : Option (List ℕ))
    (pl : Option (List String)) (orderBy : String) (lk : ℤ → Option ℤ) :
    Except PyErr NormalizedRaster :=
  match rasterData with
  | some d => normalize d pn pl orderBy lk
  | none =>
    normalize (RawRasterInput.seq (boundEvents maxSpikes simTimes simInds).1
      (boundEvents maxSpikes simTimes simInds).2 none none) pn pl orderBy lk

/-- In a sorted list, fewer than `k+1` elements lie strictly below the
element at position `k`. -/
theorem countP_lt_getD_of_sorted (s : List ℚ) (hs : s.Sorted (· ≤ ·))
    (k : ℕ) (hk : k < s.length) :
    s.countP (fun x => decide (x < s.getD k 0)) ≤ k := by
  set c := s.getD k 0 with hc0
  have hc : c = s.get ⟨k, hk⟩ := by
    rw [hc0, List.getD_eq_getElem _ _ hk]
    rfl
  conv_lhs => rw [← List.take_append_drop k s]
  rw [List.countP_append]
  have h1 : (s.take k).countP (fun x => decide (x < c)) ≤ k :=
    le_trans (List.countP_le_length _) (by rw [List.length_take]; omega)
  have h2 : (s.drop k).countP (fun x => decide (x < c)) = 0 := by
    rw [List.countP_eq_zero]
    intro x hx
    obtain ⟨j, hj, hxe⟩ := List.mem_iff_getElem.mp hx
    rw [List.getElem_drop] at hxe
    have hkj : k + j < s.length := by
      rw [List.length_drop] at hj
      omega
    have hle : s.get ⟨k, hk⟩ ≤ s.get ⟨k + j, hkj⟩ :=
      hs.rel_get_of_le (by simp only [Fin.mk_le_mk]; omega)
    simp only [decide_eq_true_eq, not_lt, hc]
    rw [← hxe]
    exact hle
  omega

/-- The modelled bounding retains at most `maxE` events whenever the raw
count exceeds `maxE`. -/
theorem boundEvents_length_le (maxE : ℕ) (times : List ℚ) (inds : List ℤ)
    (hlen : times.length = inds.length) (hgt : maxE < times.length) :
    (boundEvents maxE times inds).2.length ≤ maxE := by
  unfold boundEvents
  rw [if_neg (by omega)]
  rw [List.unzip_snd, List.length_map, ← List.countP_eq_length_filter]
  have hmapfst : List.map Prod.fst (times.zip inds) = times :=
    List.map_fst_zip _ _ (by omega)
  have hz : (times.zip inds).countP
        (fun p => decide (p.1 < (List.insertionSort (· ≤ ·) times).getD maxE 0))
      = times.countP
        (fun x => decide (x < (List.insertionSort (· ≤ ·) times).getD maxE 0)) := by
    calc (times.zip inds).countP
          (fun p => decide (p.1 < (List.insertionSort (· ≤ ·) times).getD maxE 0))
        = (times.zip inds).countP
          ((fun x => decide (x < (List.insertionSort (· ≤ ·) times).getD maxE 0))
            ∘ Prod.fst) := rfl
      _ = (List.map Prod.fst (times.zip inds)).countP
          (fun x => decide (x < (List.insertionSort (· ≤ ·) times).getD maxE 0)) :=
          (List.countP_map _ _ _).symm
      _ = times.countP
          (fun x => decide (x < (List.insertionSort (· ≤ ·) times).getD maxE 0)) := by
          rw [hmapfst]
  rw [hz]
  have hperm : (List.insertionSort (· ≤ ·) times).Perm times :=
    List.perm_insertionSort _ _
  rw [← hperm.countP_eq]
  exact countP_lt_getD_of_sorted _ (List.sorted_insertionSort _ _) maxE
    (by rw [hperm.length_eq]; omega)

/-- C4, counterexample: with an explicit 10-event input and
`maxSpikes = 5`, the pipeline retains all 10 events — `maxSpikes` is
only forwarded to `prepareRaster` (line 220) and is never applied to
explicit inputs. -/
theorem C4_explicit_maxSpikes_ignored :
    normalizeFull (some (RawRasterInput.seq
        [1, 2, 3, 4, 5, 6, 7, 8, 9, 10] [0, 1, 2, 3, 4, 5, 6, 7, 8, 9] none none))
        [] [] 5 none none "gid" noLookup
      = Except.ok ⟨[1, 2, 3, 4, 5, 6, 7, 8, 9, 10],
          [0, 1, 2, 3, 4, 5, 6, 7, 8, 9], [10], ["Population"]⟩
    ∧ (⟨[1, 2, 3, 4, 5, 6, 7, 8, 9, 10], [0, 1, 2, 3, 4, 5, 6, 7, 8, 9],
        [10], ["Population"]⟩ : NormalizedRaster).spkInds.length = 10
    ∧ ¬ (10 : ℕ) ≤ 5 :=
  ⟨rfl, rfl, by decide⟩

/-- C4, amended: event bounding happens only on the
`rasterData is None` path, inside the spec-modelled `prepareRaster`;
there, when the raw count exceeds `maxSpikes`, the result keeps at most
`maxSpikes` events and the retained events are exactly those inside a
contiguous time window (all events with time below a cutoff). -/
theorem C4_bounding_only_when_fetched (simT : List ℚ) (simI : List ℤ)
    (maxS : ℕ) (pn : Option (List ℕ)) (pl : Option (List String))
    (lk : ℤ → Option ℤ) (nr : NormalizedRaster)
    (hlen : simT.length = simI.length) (hgt : maxS < simT.length)
    (h : normalizeFull none simT simI maxS pn pl "gid" lk = Except.ok nr) :
    nr.spkInds.length ≤ maxS
    ∧ ∃ cutoff : ℚ, boundEvents maxS simT simI
        = ((simT.zip simI).filter fun p => decide (p.1 < cutoff)).unzip := by
  constructor
  · unfold normalizeFull normalize at h
    dsimp only [resolveShape] at h
    rw [show orderInds "gid" lk (boundEvents maxS simT simI).2
        = Except.ok (pySorted (boundEvents maxS simT simI).2) from rfl] at h
    dsimp only at h
    cases h
    show (pySorted (boundEvents maxS simT simI).2).length ≤ maxS
    rw [show (pySorted (boundEvents maxS simT simI).2).length
        = (boundEvents maxS simT simI).2.length from
        (List.perm_insertionSort _ _).length_eq]
    exact boundEvents_length_le maxS simT simI hlen hgt
  · refine ⟨(List.insertionSort (· ≤ ·) simT).getD maxS 0, ?_⟩
    unfold boundEvents
    rw [if_neg (by omega)]

/-- C4, witness: ten simulation events with `maxSpikes = 5` — the
fetched-data path retains the five earliest events. -/
theorem C4_bounding_witness :
    normalizeFull none [1, 2, 3, 4, 5, 6, 7, 8, 9, 10]
        [0, 1, 2, 3, 4, 5, 6, 7, 8, 9] 5 none none "gid" noLookup
      = Except.ok ⟨[1, 2, 3, 4, 5], [0, 1, 2, 3, 4], [5], ["Population"]⟩
    ∧ (⟨[1, 2, 3, 4, 5], [0, 1, 2, 3, 4], [5], ["Population"]⟩
        : NormalizedRaster).spkInds.length ≤ 5
    ∧ ∃ cutoff : ℚ, boundEvents 5 [1, 2, 3, 4, 5, 6, 7, 8, 9, 10]
        [0, 1, 2, 3, 4, 5, 6, 7, 8, 9]
        = ((([1, 2, 3, 4, 5, 6, 7, 8, 9, 10] : List ℚ).zip
            ([0, 1, 2, 3, 4, 5, 6, 7, 8, 9] : List ℤ)).filter
            fun p => decide (p.1 < cutoff)).unzip :=
  ⟨rfl,
    (C4_bounding_only_when_fetched [1, 2, 3, 4, 5, 6, 7, 8, 9, 10]
      [0, 1, 2, 3, 4, 5, 6, 7, 8, 9] 5 none none noLookup
      ⟨[1, 2, 3, 4, 5], [0, 1, 2, 3, 4], [5], ["Population"]⟩
      rfl (by decide) rfl).1,
    (C4_bounding_only_when_fetched [1, 2, 3, 4, 5, 6, 7, 8, 9, 10]
      [0, 1, 2, 3, 4, 5, 6, 7, 8, 9] 5 none none noLookup
      ⟨[1, 2, 3, 4, 5], [0, 1, 2, 3, 4], [5], ["Population"]⟩
      rfl (by decide) rfl).2⟩

end PlotRaster
